import Mathlib

/-!
Shallow embedding of the real-time chess game session coordinator
(backend service, socket controllers, policy engine and policy-protected
HTTP middleware) of the Vraj911/chess repository, together with theorems
settling the behavioural claims about it.

Conventions of the embedding:
* The chess rules library (chess.js) is an external oracle for the
  coordinator, so a live chess instance is modelled as a record
  `ChessInst` of the query results the coordinator reads (fen, turn and
  the terminal-condition flags), and the mutating oracle calls
  (`chess.move`, `chess.load`, `chess.moves`) are passed in as explicit
  function parameters, with a constructor for the "throws" outcome since
  the JavaScript calls can raise.
* JavaScript exceptions are modelled with `Except JsErr`; `try/catch`
  blocks become a `match` mapping `.error` to the caught-branch value.
* Optional / possibly-undefined JavaScript fields are modelled as
  `Option`; a JavaScript value that may be `null`-or-not-an-object is an
  `Option` at the call site.
* Emissions to connections are returned as explicit lists so that the
  theorems can talk about who was notified.
-/

/-- JavaScript runtime errors relevant to the embedded code
(accessing a property of `undefined`, etc.). -/
inductive JsErr where
  | typeError
  deriving DecidableEq, Repr

/-- A move payload as sent by clients and passed to chess.js:
`\x7bfrom, to, promotion\x7d`.  `from` is a Lean keyword, so the fields are
named `fromSq` / `toSq`. -/
structure MoveArg where
  fromSq : Option String
  toSq : Option String
  promotion : Option String
  deriving DecidableEq, Repr

/-- The state of a chess.js instance as observed by the coordinator:
the queries `fen()`, `turn()`, `isCheckmate()`, `isStalemate()`,
`isThreefoldRepetition()`, `isInsufficientMaterial()`, `isDraw()`,
`isCheck()`, `isGameOver()` read these fields. -/
structure ChessInst where
  fen : String
  turn : String
  isCheckmate : Bool
  isStalemate : Bool
  isThreefoldRepetition : Bool
  isInsufficientMaterial : Bool
  isDraw : Bool
  isCheck : Bool
  isGameOver : Bool
  deriving DecidableEq, Repr

/-- Normalized move record returned by a successful `chess.move` call. -/
structure MoveRec where
  san : String
  deriving DecidableEq, Repr

/-- Outcome of a `chess.move(move)` oracle call: the call can throw
(chess.js v1 raises on illegal input), return null, or succeed with the
updated instance and a normalized move record. -/
inductive MoveApply where
  | throws
  | nullResult
  | success (inst : ChessInst) (rec : MoveRec)
  deriving DecidableEq, Repr

/-- Type of the `chess.move` oracle. -/
def MoveOracle : Type := ChessInst → MoveArg → MoveApply

/-- One entry of `gameHistory` in `ChessGame.makeMove`
(the `timestamp` field is wall-clock time and is not modelled). -/
structure HistEntry where
  move : MoveRec
  fen : String
  moveNumber : Nat
  deriving DecidableEq, Repr

/-- The `ChessGame` class of `backend/service/service.js`
(`gameStartTime` / `lastMoveTime` are wall-clock dates and are not
modelled; no claim mentions them). -/
structure ChessGame where
  chess : ChessInst
  gameHistory : List HistEntry
  moveCount : Nat
  gameStatus : String
  winner : Option String
  drawReason : Option String
  deriving DecidableEq, Repr

/-- `ChessGame.updateGameStatus` (service.js lines 92-116): recomputes
`gameStatus`, `winner` and `drawReason` from the chess.js terminal
flags; the final `else` branch sets the status to `'active'`. -/
def ChessGame.updateGameStatus (g : ChessGame) : ChessGame :=
  if g.chess.isCheckmate then
    { g with gameStatus := "finished",
             winner := some (if g.chess.turn = "w" then "b" else "w"),
             drawReason := none }
  else if g.chess.isStalemate then
    { g with gameStatus := "finished", winner := none, drawReason := some "stalemate" }
  else if g.chess.isThreefoldRepetition then
    { g with gameStatus := "finished", winner := none, drawReason := some "threefold_repetition" }
  else if g.chess.isInsufficientMaterial then
    { g with gameStatus := "finished", winner := none, drawReason := some "insufficient_material" }
  else if g.chess.isDraw then
    { g with gameStatus := "finished", winner := none, drawReason := some "draw" }
  else
    { g with gameStatus := "active" }

/-- `ChessGame.startNewGame` (service.js lines 45-55): unconditionally
resets the game — fresh chess.js instance (passed as the oracle value
`newInst`), empty history, zero move count, status `'active'`. -/
def ChessGame.startNewGame (g : ChessGame) (newInst : ChessInst) : ChessGame :=
  { g with chess := newInst, gameHistory := [], moveCount := 0,
           gameStatus := "active", winner := none, drawReason := none }

/-- `ChessGame.makeMove` (service.js lines 65-90): calls `chess.move`
inside try/catch; on a truthy result increments `moveCount`, appends to
`gameHistory` and runs `updateGameStatus`; on null or a thrown error
returns null with no state change.  Returns (new state, returned value). -/
def ChessGame.makeMove (g : ChessGame) (m : MoveArg) (mv : MoveOracle) :
    ChessGame × Option MoveRec :=
  match mv g.chess m with
  | .throws => (g, none)
  | .nullResult => (g, none)
  | .success inst rec =>
      let g1 := { g with chess := inst,
                         moveCount := g.moveCount + 1,
                         gameHistory := g.gameHistory ++
                           [({ move := rec, fen := inst.fen,
                               moveNumber := g.moveCount + 1 } : HistEntry)] }
      (g1.updateGameStatus, some rec)

/-- `ChessGame.resign` (service.js lines 197-205): only acts when
`gameStatus === 'active'`; otherwise returns false with no change. -/
def ChessGame.resign (g : ChessGame) (color : String) : ChessGame × Bool :=
  if g.gameStatus = "active" then
    ({ g with gameStatus := "finished",
              winner := some (if color = "w" then "b" else "w"),
              drawReason := some "resignation" }, true)
  else
    (g, false)

/-- `ChessGame.loadGame` (service.js lines 216-225): `chess.load(fen)`
inside try/catch; on success runs `updateGameStatus` and returns true,
on a thrown error returns false with no state change.  The load oracle
is a parameter. -/
def ChessGame.loadGame (g : ChessGame) (fen : String)
    (loadFn : ChessInst → String → Except JsErr ChessInst) : ChessGame × Bool :=
  match loadFn g.chess fen with
  | .error _ => (g, false)
  | .ok inst => (({ g with chess := inst }).updateGameStatus, true)

/-- `ChessGame.getValidMoves` (service.js lines 150-156):
`chess.moves(\x7bsquare, verbose: true\x7d)` inside try/catch returning `[]`
on a thrown error.  The moves oracle is a parameter. -/
def ChessGame.getValidMoves (g : ChessGame) (square : String)
    (movesFn : ChessInst → String → Except JsErr (List MoveRec)) : List MoveRec :=
  match movesFn g.chess square with
  | .ok l => l
  | .error _ => []

/-- `ChessGame.getAllValidMoves` (service.js lines 158-164):
`chess.moves(\x7bverbose: true\x7d)` inside try/catch returning `[]` on a
thrown error. -/
def ChessGame.getAllValidMoves (g : ChessGame)
    (movesAllFn : ChessInst → Except JsErr (List MoveRec)) : List MoveRec :=
  match movesAllFn g.chess with
  | .ok l => l
  | .error _ => []

/-- The five chess.js terminal flags that `updateGameStatus` branches
on, as one predicate. -/
def ChessInst.terminalFlag (i : ChessInst) : Bool :=
  i.isCheckmate || i.isStalemate || i.isThreefoldRepetition ||
    i.isInsufficientMaterial || i.isDraw

/-! ## Single-room socket coordinator (the `players` object coordinator) -/

/-- The module-level `players` object of the single-room socket
controller: at most one socket id per seat color. -/
structure PlayersMap where
  white : Option String
  black : Option String
  deriving DecidableEq, Repr

/-- Full state touched by the single-room coordinator: the seat map and
the singleton `ChessGame` of the service module. -/
structure SingleState where
  players : PlayersMap
  game : ChessGame
  deriving DecidableEq, Repr

/-- Emissions of the single-room coordinator: `io.emit` broadcasts to
every connection, `socket.emit` goes to the requester only. -/
inductive Emit1 where
  | broadcast (event : String)
  | toRequester (event : String)
  deriving DecidableEq, Repr

/-- The seat-color computation of the single-room move handler:
`(socket.id === players.white) ? 'w' : (socket.id === players.black) ? 'b' : null`. -/
def colorOf (ps : PlayersMap) (socketId : String) : Option String :=
  if ps.white = some socketId then some "w"
  else if ps.black = some socketId then some "b"
  else none

/-- The `move` event handler of the single-room socket controller:
resolve the sender's seat color; return silently unless the color exists
and equals `chessService.getTurn()`; otherwise apply the move through
the service, broadcasting on success (plus `gameOver` when the oracle
reports the game over) and emitting `invalid` to the requester on a
null result. -/
def handleMoveEvent (st : SingleState) (socketId : String) (m : MoveArg)
    (mv : MoveOracle) : SingleState × List Emit1 :=
  match colorOf st.players socketId with
  | none => (st, [])
  | some c =>
      if c ≠ st.game.chess.turn then (st, [])
      else
        let (g', res) := st.game.makeMove m mv
        match res with
        | some _ =>
            ({ st with game := g' },
              [Emit1.broadcast "move", Emit1.broadcast "boardState"] ++
                (if g'.chess.isGameOver then [Emit1.broadcast "gameOver"] else []))
        | none => ({ st with game := g' }, [Emit1.toRequester "invalid"])

/-- The `disconnect` handler of the single-room controller: deletes the
seat(s) whose stored socket id equals the leaving socket's id; the game
itself is untouched. -/
def handleDisconnectEvent (ps : PlayersMap) (socketId : String) : PlayersMap :=
  let ps1 := if ps.white = some socketId then { ps with white := none } else ps
  if ps1.black = some socketId then { ps1 with black := none } else ps1

/-- The property named by the spec for the move gate: the acting socket
occupies the seat whose color equals the current turn. -/
def occupiesTurnSeat (st : SingleState) (socketId : String) : Prop :=
  (st.players.white = some socketId ∧ st.game.chess.turn = "w") ∨
    (st.players.black = some socketId ∧ st.game.chess.turn = "b")

instance (st : SingleState) (socketId : String) :
    Decidable (occupiesTurnSeat st socketId) := by
  unfold occupiesTurnSeat; infer_instance

/-! ## Multi-room socket coordinator (`backend/sockets/socketController.js`) -/

/-- A seated player record as pushed by `handleNewGame` / `handleJoinGame`:
`\x7buserId, username, rating, socketId, color\x7d`. -/
structure SPlayer where
  userId : String
  username : String
  rating : Int
  socketId : String
  color : String
  deriving DecidableEq, Repr

/-- A game-room object of the multi-room controller (`this.games` map
entries).  Fields that the JavaScript object acquires only later
(`currentTurn`, `isCheck`, `winner`, ...) are modelled with defaults
matching the undefined/false reading of the original. -/
structure SGame where
  id : String
  fen : String
  status : String
  players : List SPlayer
  spectators : List String
  moveCount : Nat
  currentTurn : String
  isCheck : Bool
  winner : Option String
  result : Option String
  drawReason : Option String
  lastMove : Option MoveArg
  disconnectedBy : Option String
  resignedBy : Option String
  allowSpectators : Bool
  deriving DecidableEq, Repr

/-- The connection record stored in `this.users` by `handleConnection`:
`\x7buserId, username, rating, socketId\x7d`.  Note it has NO `_id` field. -/
structure UserInfo where
  userId : String
  username : String
  rating : Int
  socketId : String
  deriving DecidableEq, Repr

/-- Results of `new Chess(game.fen)` plus `chess.move(data)` in
`handleMove`: throw, null, or success together with the post-move
queries the handler reads (`fen`, `isCheckmate`, `isDraw`,
`isStalemate`, `isCheck`). -/
structure SMoveResult where
  newFen : String
  isCheckmate : Bool
  isDraw : Bool
  isStalemate : Bool
  isCheck : Bool
  deriving DecidableEq, Repr

/-- Oracle outcome for the `handleMove` chess.js call. -/
inductive SOracle where
  | throws
  | illegal
  | legal (r : SMoveResult)
  deriving DecidableEq, Repr

/-- Emissions of the multi-room controller: `socket.emit` to the
requester, `socket.to(gameId).emit` to the other room members. -/
inductive Emit where
  | toRequester (event : String)
  | toRoomOthers (event : String)
  deriving DecidableEq, Repr

/-- JavaScript strict equality between a seated player object and
`user._id` on the socket path: the stored connection record
(`UserInfo`) has no `_id` field, so the compared value is `undefined`,
and an object in the `players` array is never strictly equal to
`undefined`; the comparison is identically false. -/
def sPlayerEqUndefinedId (p : SPlayer) : Bool := false

/-- `GamePolicy.canMakeMove` as invoked from
`SocketController.handleMove` (context `\x7buser: userInfo, game, move\x7d`,
gamePolicy.js lines 78-113): status guard, then
`game.players.includes(user._id)` evaluated with `user._id = undefined`
against an array of player objects; if that membership test ever
passed, the next line `user._id.toString()` would throw a TypeError. -/
def GamePolicy.canMakeMoveSocket (u : UserInfo) (g : SGame) (d : MoveArg) :
    Except JsErr Bool :=
  if g.status ≠ "active" then .ok false
  else if ¬ (g.players.any sPlayerEqUndefinedId) then .ok false
  else .error .typeError

/-- `policyManager.can('game', 'make_move', \x7buser, game, move\x7d)` on the
socket path: `validateContext(context, ['user','game'])` passes (both
keys present), and the try/catch of `PolicyManager.can` maps a thrown
error to `false`. -/
def PolicyManager.canSocketMakeMove (u : UserInfo) (g : SGame) (d : MoveArg) : Bool :=
  match GamePolicy.canMakeMoveSocket u g d with
  | .ok b => b
  | .error _ => false

/-- `GamePolicy.canResignGame` as invoked from
`SocketController.handleResign` (gamePolicy.js lines 121-138). -/
def GamePolicy.canResignGameSocket (u : UserInfo) (g : SGame) : Except JsErr Bool :=
  if g.status ≠ "active" then .ok false
  else if ¬ (g.players.any sPlayerEqUndefinedId) then .ok false
  else if g.status = "waiting" then .ok false
  else .ok true

/-- `policyManager.can('game', 'resign_game', \x7buser, game\x7d)` on the
socket path. -/
def PolicyManager.canSocketResign (u : UserInfo) (g : SGame) : Bool :=
  match GamePolicy.canResignGameSocket u g with
  | .ok b => b
  | .error _ => false

/-- The state update applied by `SocketController.handleMove` when the
policy allowed the move and chess.js accepted it
(socketController.js lines 301-318): new fen, `moveCount++`,
`currentTurn` flip, `lastMove`, then the checkmate / draw / check
status branches. -/
def SocketController.applyAcceptedMove (g : SGame) (d : MoveArg) (r : SMoveResult) : SGame :=
  let turnAfter := if g.currentTurn = "white" then "black" else "white"
  let base := { g with fen := r.newFen, moveCount := g.moveCount + 1,
                       currentTurn := turnAfter, lastMove := some d }
  if r.isCheckmate then
    { base with status := "finished",
                winner := some (if turnAfter = "white" then "black" else "white"),
                result := some "checkmate" }
  else if r.isDraw then
    { base with status := "finished", result := some "draw",
                drawReason := some (if r.isStalemate then "stalemate" else "draw") }
  else if r.isCheck then
    { base with isCheck := true }
  else base

/-- The payload of the `moveMade` broadcast
(socketController.js lines 320-327), as read from the updated game. -/
structure MoveMadePayload where
  fen : String
  gameStatus : String
  isCheck : Bool
  currentTurn : String
  deriving DecidableEq, Repr

/-- Builds the `moveMade` payload from the (already updated) game. -/
def SocketController.moveMadePayload (g : SGame) : MoveMadePayload :=
  { fen := g.fen, gameStatus := g.status, isCheck := g.isCheck,
    currentTurn := g.currentTurn }

/-- `SocketController.handleMove` (socketController.js lines 266-351):
authentication lookup, game lookup, `make_move` policy check, chess.js
oracle call, state update and emissions.  The first component is the
room's state after the call (`none` keeps "no such game"); the second
lists the emissions in order. -/
def SocketController.handleMove (user : Option UserInfo) (game : Option SGame)
    (d : MoveArg) (oracle : String → MoveArg → SOracle) : Option SGame × List Emit :=
  match user with
  | none => (game, [Emit.toRequester "error:User not authenticated"])
  | some u =>
      match game with
      | none => (none, [Emit.toRequester "error:Game not found"])
      | some g =>
          if PolicyManager.canSocketMakeMove u g d = false then
            (some g, [Emit.toRequester "error:Cannot make this move"])
          else
            match oracle g.fen d with
            | .throws => (some g, [Emit.toRequester "error:Failed to make move"])
            | .illegal => (some g, [Emit.toRequester "error:Invalid move"])
            | .legal r =>
                let g' := SocketController.applyAcceptedMove g d r
                (some g', [Emit.toRoomOthers "moveMade", Emit.toRequester "moveConfirmed"])

/-- The state update of `SocketController.handleResign` once the policy
allowed the resignation (socketController.js lines 383-387). -/
def SocketController.resignUpdate (g : SGame) (u : UserInfo) : SGame :=
  { g with status := "finished", resignedBy := some u.userId,
           winner := (g.players.find? (fun p => p.userId != u.userId)).map (fun p => p.color),
           result := some "resignation" }

/-- `SocketController.handleResign` (socketController.js lines 358-415). -/
def SocketController.handleResign (user : Option UserInfo) (game : Option SGame) :
    Option SGame × List Emit :=
  match user with
  | none => (game, [Emit.toRequester "error:User not authenticated"])
  | some u =>
      match game with
      | none => (none, [Emit.toRequester "error:Game not found"])
      | some g =>
          if PolicyManager.canSocketResign u g = false then
            (some g, [Emit.toRequester "error:Cannot resign at this time"])
          else
            let g' := SocketController.resignUpdate g u
            (some g', [Emit.toRoomOthers "gameResigned", Emit.toRequester "resignationConfirmed"])

/-- A targeted notification (emitted through a socket looked up by id). -/
structure Notif where
  socketId : String
  event : String
  deriving DecidableEq, Repr

/-- `SocketController.getSocketById` (socketController.js lines
506-510): the source is a placeholder that always returns null
("This would need access to the socket.io instance"). -/
def SocketController.getSocketById (socketId : String) : Option Unit := none

/-- `SocketController.handlePlayerDisconnection` (socketController.js
lines 422-463): returns early unless the game exists and is `'active'`
and the leaving socket held a seat; otherwise marks the game finished
by disconnection, computes the winner from the remaining seat and
attempts to notify each remaining player through `getSocketById`. -/
def SocketController.handlePlayerDisconnection (game : Option SGame) (socketId : String) :
    Option SGame × List Notif :=
  match game with
  | none => (none, [])
  | some g =>
      if g.status ≠ "active" then (some g, [])
      else
        match g.players.find? (fun p => p.socketId == socketId) with
        | none => (some g, [])
        | some player =>
            let winner := (g.players.find? (fun p => p.socketId != socketId)).map (fun p => p.color)
            let g' := { g with status := "finished", disconnectedBy := some player.userId,
                               winner := winner, result := some "disconnection" }
            let remaining := g'.players.filter (fun p => p.socketId != socketId)
            let notifs := remaining.filterMap (fun p =>
              (SocketController.getSocketById p.socketId).map
                (fun _ => ({ socketId := p.socketId, event := "playerDisconnected" } : Notif)))
            (some g', notifs)

/-! ## Policy engine over game documents (basePolicy.js, gamePolicy.js,
userPolicy.js, policyManager.js)

The policies are duck-typed JavaScript; on the HTTP path they receive
the persisted game document (players as a list of user ids,
`currentTurn` a user id) and the authenticated user document.  Fields a
predicate may find absent are `Option`; reading a property of an absent
object is a `.error .typeError` and reaches the try/catch of
`PolicyManager.can`. -/

/-- `\x7bplayerId, timeRemaining\x7d` entry of `game.playerTimers`. -/
structure PTimer where
  playerId : String
  timeRemaining : Int
  deriving DecidableEq, Repr

/-- `game.timeControl` as read by the policy (`.type`). -/
structure TimeControl where
  type : String
  deriving DecidableEq, Repr

/-- `game.pendingDrawOffer` as read by the policy (`.from`; named
`fromId` because `from` is a Lean keyword). -/
structure DrawOfferRec where
  fromId : String
  deriving DecidableEq, Repr

/-- `game.tournament` as read by `canAdministerGame` (`.organizer`). -/
structure TournamentRef where
  organizer : String
  deriving DecidableEq, Repr

/-- A tournament document as read by `canJoinTournament`. -/
structure Tournament where
  status : String
  minRating : Option Int
  maxRating : Option Int
  participants : List String
  deriving DecidableEq, Repr

/-- A game document as read by the policy predicates. -/
structure MGame where
  status : String
  players : List String
  currentTurn : Option String
  isPaused : Bool
  moveCount : Nat
  pendingDrawOffer : Option DrawOfferRec
  allowSpectators : Bool
  isPublic : Bool
  minRating : Option Int
  maxRating : Option Int
  timeControl : Option TimeControl
  playerTimers : Option (List PTimer)
  tournament : Option TournamentRef
  deriving DecidableEq, Repr

/-- A user document as read by the policy predicates. -/
structure MUser where
  _id : String
  rating : Int
  role : String
  isBanned : Bool
  isPublic : Bool
  emailVerified : Bool
  friends : Option (List String)
  analysisCredits : Int
  deriving DecidableEq, Repr

/-- The context object handed to `policyManager.can`; every key the
policies ever destructure, with `Option` for keys a caller may omit.
A non-object / null context is `none` at the call site. -/
structure PContext where
  user : Option MUser
  game : Option MGame
  move : Option MoveArg
  targetUser : Option MUser
  targetGame : Option Tournament
  resource : Option MGame
  deriving DecidableEq, Repr

/-- The empty context `\x7b\x7d` (all keys absent). -/
def PContext.empty : PContext :=
  { user := none, game := none, move := none, targetUser := none,
    targetGame := none, resource := none }

/-- JavaScript `field in context` for the keys the policies use. -/
def PContext.hasField (c : PContext) : String → Bool
  | "user" => c.user.isSome
  | "game" => c.game.isSome
  | "move" => c.move.isSome
  | "targetUser" => c.targetUser.isSome
  | "targetGame" => c.targetGame.isSome
  | "resource" => c.resource.isSome
  | _ => false

/-- `BasePolicy.validateContext` (basePolicy.js lines 46-58): false for
a missing / non-object context, then requires every listed field to be
present. -/
def BasePolicy.validateContext (ctx : Option PContext) (requiredFields : List String) : Bool :=
  match ctx with
  | none => false
  | some c => requiredFields.all c.hasField

/-- JavaScript falsiness of an optional string (undefined or `''`). -/
def falsyOptStr : Option String → Bool
  | none => true
  | some s => s == ""

/-- JavaScript truthiness of an optional numeric field (undefined or 0
are falsy). -/
def truthyOptInt : Option Int → Bool
  | none => false
  | some r => r != 0

/-- `GamePolicy.getTimeRemaining` (gamePolicy.js lines 418-428):
Infinity (modelled `none`) when `timeControl` or `playerTimers` is
missing, else the matching timer's remaining time or 0. -/
def GamePolicy.getTimeRemaining (u : MUser) (g : MGame) : Option Int :=
  match g.timeControl, g.playerTimers with
  | some _, some timers =>
      some (((timers.find? (fun t => t.playerId == u._id)).map
        (fun t => t.timeRemaining)).getD 0)
  | _, _ => none

/-- `GamePolicy.canMakeMove` (gamePolicy.js lines 78-113) over the game
document shape: active status, membership of `players`,
`game.currentTurn === user._id.toString()`, not paused, structurally
well-formed move, and the blitz time check. -/
def GamePolicy.canMakeMove (u : MUser) (g : MGame) (move : Option MoveArg) :
    Except JsErr Bool :=
  if g.status ≠ "active" then .ok false
  else if ¬ g.players.contains u._id then .ok false
  else if g.currentTurn ≠ some u._id then .ok false
  else if g.isPaused then .ok false
  else
    match move with
    | none => .ok false
    | some m =>
        if falsyOptStr m.fromSq || falsyOptStr m.toSq then .ok false
        else
          match g.timeControl with
          | some tc =>
              if tc.type = "blitz" then
                match GamePolicy.getTimeRemaining u g with
                | some t => if t ≤ 0 then .ok false else .ok true
                | none => .ok true
              else .ok true
          | none => .ok true

/-- `GamePolicy.canResignGame` (gamePolicy.js lines 121-138). -/
def GamePolicy.canResignGame (u : MUser) (g : MGame) : Except JsErr Bool :=
  if g.status ≠ "active" then .ok false
  else if ¬ g.players.contains u._id then .ok false
  else if g.status = "waiting" then .ok false
  else .ok true

/-- `GamePolicy.canOfferDraw` (gamePolicy.js lines 146-168). -/
def GamePolicy.canOfferDraw (u : MUser) (g : MGame) : Except JsErr Bool :=
  if g.status ≠ "active" then .ok false
  else if ¬ g.players.contains u._id then .ok false
  else if g.moveCount < 30 then .ok false
  else if g.pendingDrawOffer.isSome then .ok false
  else .ok true

/-- `GamePolicy.canAcceptDraw` (gamePolicy.js lines 176-198): active
status, membership, a pending draw offer, and the offer not authored by
the acting user. -/
def GamePolicy.canAcceptDraw (u : MUser) (g : MGame) : Except JsErr Bool :=
  if g.status ≠ "active" then .ok false
  else if ¬ g.players.contains u._id then .ok false
  else
    match g.pendingDrawOffer with
    | none => .ok false
    | some offer => if offer.fromId = u._id then .ok false else .ok true

/-- `GamePolicy.canDeclineDraw` (gamePolicy.js lines 206-228): same
checks as `canAcceptDraw`. -/
def GamePolicy.canDeclineDraw (u : MUser) (g : MGame) : Except JsErr Bool :=
  if g.status ≠ "active" then .ok false
  else if ¬ g.players.contains u._id then .ok false
  else
    match g.pendingDrawOffer with
    | none => .ok false
    | some offer => if offer.fromId = u._id then .ok false else .ok true

/-- `GamePolicy.canRequestAnalysis` (gamePolicy.js lines 236-253). -/
def GamePolicy.canRequestAnalysis (u : MUser) (g : MGame) : Except JsErr Bool :=
  if g.status ≠ "finished" then .ok false
  else if ¬ g.players.contains u._id then .ok false
  else if u.analysisCredits ≤ 0 then .ok false
  else .ok true

/-- `GamePolicy.canViewGame` (gamePolicy.js lines 261-283). -/
def GamePolicy.canViewGame (u : MUser) (g : MGame) : Except JsErr Bool :=
  if g.players.contains u._id then .ok true
  else if g.allowSpectators then .ok true
  else if u.role = "admin" then .ok true
  else if g.isPublic then .ok true
  else .ok false

/-- `GamePolicy.canJoinGame` (gamePolicy.js lines 291-317). -/
def GamePolicy.canJoinGame (u : MUser) (g : MGame) : Except JsErr Bool :=
  if g.status ≠ "waiting" then .ok false
  else if g.players.contains u._id then .ok false
  else if g.players.length ≥ 2 then .ok false
  else if truthyOptInt g.minRating && decide (u.rating < g.minRating.getD 0) then .ok false
  else if truthyOptInt g.maxRating && decide (u.rating > g.maxRating.getD 0) then .ok false
  else .ok true

/-- `GamePolicy.canSpectateGame` (gamePolicy.js lines 325-337). -/
def GamePolicy.canSpectateGame (u : MUser) (g : MGame) : Except JsErr Bool :=
  if ¬ g.allowSpectators then .ok false
  else if g.players.contains u._id then .ok false
  else .ok true

/-- `GamePolicy.canCreateTournament` (gamePolicy.js lines 344-361). -/
def GamePolicy.canCreateTournament (u : MUser) : Except JsErr Bool :=
  if u.rating < 1000 then .ok false
  else if u.isBanned then .ok false
  else .ok true

/-- `GamePolicy.canJoinTournament` (gamePolicy.js lines 369-390):
reading `tournament.status` throws a TypeError when the context carried
no `targetGame`. -/
def GamePolicy.canJoinTournament (u : MUser) (tournament : Option Tournament) :
    Except JsErr Bool :=
  match tournament with
  | none => .error .typeError
  | some t =>
      if t.status ≠ "registration" then .ok false
      else if truthyOptInt t.minRating && decide (u.rating < t.minRating.getD 0) then .ok false
      else if truthyOptInt t.maxRating && decide (u.rating > t.maxRating.getD 0) then .ok false
      else if t.participants.contains u._id then .ok false
      else .ok true

/-- `GamePolicy.canAdministerGame` (gamePolicy.js lines 398-410). -/
def GamePolicy.canAdministerGame (u : MUser) (g : MGame) : Except JsErr Bool :=
  if u.role = "admin" then .ok true
  else
    match g.tournament with
    | some t => if t.organizer = u._id then .ok true else .ok false
    | none => .ok false

/-- `GamePolicy.can` (gamePolicy.js lines 21-69): context validation
with required fields `['user', 'game']`, then the action switch with a
fail-closed default. -/
def GamePolicy.can (ctx : Option PContext) (action : String) : Except JsErr Bool :=
  if ¬ BasePolicy.validateContext ctx ["user", "game"] then .ok false
  else
    match ctx with
    | none => .ok false
    | some c =>
        match c.user, c.game with
        | some u, some g =>
            match action with
            | "make_move" => GamePolicy.canMakeMove u g c.move
            | "resign_game" => GamePolicy.canResignGame u g
            | "offer_draw" => GamePolicy.canOfferDraw u g
            | "accept_draw" => GamePolicy.canAcceptDraw u g
            | "decline_draw" => GamePolicy.canDeclineDraw u g
            | "request_analysis" => GamePolicy.canRequestAnalysis u g
            | "view_game" => GamePolicy.canViewGame u g
            | "join_game" => GamePolicy.canJoinGame u g
            | "spectate_game" => GamePolicy.canSpectateGame u g
            | "create_tournament" => GamePolicy.canCreateTournament u
            | "join_tournament" => GamePolicy.canJoinTournament u c.targetGame
            | "administer_game" => GamePolicy.canAdministerGame u g
            | _ => .ok false
        | _, _ => .ok false

/-- `UserPolicy.canViewProfile` (userPolicy.js lines 262-284):
`targetUser._id.toString()` throws when the context carried no
`targetUser`. -/
def UserPolicy.canViewProfile (u : MUser) (targetUser : Option MUser) :
    Except JsErr Bool :=
  match targetUser with
  | none => .error .typeError
  | some t =>
      if u._id = t._id then .ok true
      else if t.isPublic then .ok true
      else if u.role = "admin" then .ok true
      else if (match u.friends with | some fs => fs.contains t._id | none => false) then .ok true
      else .ok false

/-- `UserPolicy.canEditProfile` (userPolicy.js lines 292-304). -/
def UserPolicy.canEditProfile (u : MUser) (targetUser : Option MUser) :
    Except JsErr Bool :=
  match targetUser with
  | none => .error .typeError
  | some t =>
      if u._id = t._id then .ok true
      else if u.role = "admin" then .ok true
      else .ok false

/-- `UserPolicy.canDeleteAccount` (userPolicy.js lines 312-324). -/
def UserPolicy.canDeleteAccount (u : MUser) (targetUser : Option MUser) :
    Except JsErr Bool :=
  match targetUser with
  | none => .error .typeError
  | some t =>
      if u._id = t._id then .ok true
      else if u.role = "admin" then .ok true
      else .ok false

/-- `UserPolicy.canChangePassword` (userPolicy.js lines 332-344). -/
def UserPolicy.canChangePassword (u : MUser) (targetUser : Option MUser) :
    Except JsErr Bool :=
  match targetUser with
  | none => .error .typeError
  | some t =>
      if u._id = t._id then .ok true
      else if u.role = "admin" then .ok true
      else .ok false

/-- `UserPolicy.canViewStats` (userPolicy.js lines 352-369). -/
def UserPolicy.canViewStats (u : MUser) (targetUser : Option MUser) :
    Except JsErr Bool :=
  match targetUser with
  | none => .error .typeError
  | some t =>
      if u._id = t._id then .ok true
      else if t.isPublic then .ok true
      else if u.role = "admin" then .ok true
      else .ok false

/-- `UserPolicy.canUpdateRating` (userPolicy.js lines 377-389): only
reads `user.role`, so a missing target user cannot make it throw. -/
def UserPolicy.canUpdateRating (u : MUser) : Except JsErr Bool :=
  if u.role = "system" then .ok true
  else if u.role = "admin" then .ok true
  else .ok false

/-- `UserPolicy.canViewGames` (userPolicy.js lines 397-414). -/
def UserPolicy.canViewGames (u : MUser) (targetUser : Option MUser) :
    Except JsErr Bool :=
  match targetUser with
  | none => .error .typeError
  | some t =>
      if u._id = t._id then .ok true
      else if t.isPublic then .ok true
      else if u.role = "admin" then .ok true
      else .ok false

/-- `UserPolicy.canCreateGame` (userPolicy.js lines 421-438). -/
def UserPolicy.canCreateGame (u : MUser) : Except JsErr Bool :=
  if u.isBanned then .ok false
  else if ¬ u.emailVerified then .ok false
  else .ok true

/-- `UserPolicy.canJoinGame` (userPolicy.js lines 446-473): reads
`game.status` on the `resource` key, throwing when it is absent. -/
def UserPolicy.canJoinGame (u : MUser) (game : Option MGame) : Except JsErr Bool :=
  if u.isBanned then .ok false
  else
    match game with
    | none => .error .typeError
    | some g =>
        if g.status ≠ "waiting" then .ok false
        else if g.players.contains u._id then .ok false
        else if g.players.length ≥ 2 then .ok false
        else .ok true

/-- `UserPolicy.canSpectateGame` (userPolicy.js lines 481-493): reads
`game.allowSpectators` first, throwing when the resource is absent. -/
def UserPolicy.canSpectateGame (u : MUser) (game : Option MGame) : Except JsErr Bool :=
  match game with
  | none => .error .typeError
  | some g =>
      if ¬ g.allowSpectators then .ok false
      else if u.isBanned then .ok false
      else .ok true

/-- `UserPolicy.can` (userPolicy.js lines 212-254): context validation
with required fields `['user']`, then the action switch with a
fail-closed default. -/
def UserPolicy.can (ctx : Option PContext) (action : String) : Except JsErr Bool :=
  if ¬ BasePolicy.validateContext ctx ["user"] then .ok false
  else
    match ctx with
    | none => .ok false
    | some c =>
        match c.user with
        | some u =>
            match action with
            | "view_profile" => UserPolicy.canViewProfile u c.targetUser
            | "edit_profile" => UserPolicy.canEditProfile u c.targetUser
            | "delete_account" => UserPolicy.canDeleteAccount u c.targetUser
            | "change_password" => UserPolicy.canChangePassword u c.targetUser
            | "view_stats" => UserPolicy.canViewStats u c.targetUser
            | "update_rating" => UserPolicy.canUpdateRating u
            | "view_games" => UserPolicy.canViewGames u c.targetUser
            | "create_game" => UserPolicy.canCreateGame u
            | "join_game" => UserPolicy.canJoinGame u c.resource
            | "spectate_game" => UserPolicy.canSpectateGame u c.resource
            | _ => .ok false
        | none => .ok false

/-- The value of a caught JavaScript try/catch around a policy
evaluation: the thrown error becomes `false`. -/
def exceptCatch (e : Except JsErr Bool) : Bool :=
  match e with
  | .ok b => b
  | .error _ => false

/-- `PolicyManager.can` (policyManager.js lines 35-64): looks up the
registered policy (`'user'` or `'game'`, policyManager.js lines 18-26),
returns `false` for an unknown policy type, evaluates the policy inside
try/catch and returns `false` when the evaluation throws. -/
def PolicyManager.can (policyType : String) (ctx : Option PContext) (action : String) : Bool :=
  if policyType = "user" then exceptCatch (UserPolicy.can ctx action)
  else if policyType = "game" then exceptCatch (GamePolicy.can ctx action)
  else false

/-! ## Policy-protected HTTP middleware
(`backend/middleware/policyMiddleware.js`) -/

/-- Outcome of one policy-protected HTTP middleware invocation:
a 401/403/500 response, or `next()` (business logic proceeds). -/
inductive HttpOutcome where
  | unauthorized (msg : String)
  | forbidden (msg : String)
  | serverError (msg : String)
  | nextCalled
  deriving DecidableEq, Repr

/-- The spread `\x7b...context, ...additionalContext\x7d` merge of the base
context (the authenticated user) with the context builder's result
(keys present in the builder result override the base). -/
def mergeContext (base extra : PContext) : PContext :=
  { user := extra.user <|> base.user,
    game := extra.game <|> base.game,
    move := extra.move <|> base.move,
    targetUser := extra.targetUser <|> base.targetUser,
    targetGame := extra.targetGame <|> base.targetGame,
    resource := extra.resource <|> base.resource }

/-- `PolicyMiddleware.requirePermission` (policyMiddleware.js lines
18-68): 401 without an authenticated user; the context builder runs
inside its own try/catch whose catch branch answers 500 `'Context
building failed'`; a policy denial answers 403 `'Insufficient
permissions'`; otherwise `next()` runs.  `builderResult` is `none` when
no context builder was supplied, and otherwise carries the builder
call's outcome (throw or built context). -/
def PolicyMiddleware.requirePermission (policyType action : String)
    (reqUser : Option MUser) (builderResult : Option (Except JsErr PContext)) :
    HttpOutcome :=
  match reqUser with
  | none => .unauthorized "Authentication required"
  | some u =>
      let base : PContext := { PContext.empty with user := some u }
      match builderResult with
      | some (.error _) => .serverError "Context building failed"
      | some (.ok extra) =>
          if PolicyManager.can policyType (some (mergeContext base extra)) action then
            .nextCalled
          else .forbidden "Insufficient permissions"
      | none =>
          if PolicyManager.can policyType (some base) action then .nextCalled
          else .forbidden "Insufficient permissions"

/-! ## Concrete fixtures used by witnesses and counterexamples -/

/-- The initial chess.js instance (white to move, no terminal flag). -/
def inst0 : ChessInst :=
  { fen := "rnbqkbnr/pppppppp/8/8/8/8/PPPPPPPP/RNBQKBNR w KQkq - 0 1",
    turn := "w", isCheckmate := false, isStalemate := false,
    isThreefoldRepetition := false, isInsufficientMaterial := false,
    isDraw := false, isCheck := false, isGameOver := false }

/-- The instance after a successful opening move (black to move). -/
def inst1 : ChessInst := { inst0 with turn := "b", fen := "fen-after-e2e4" }

/-- A fresh active service game. -/
def g0 : ChessGame :=
  { chess := inst0, gameHistory := [], moveCount := 0,
    gameStatus := "active", winner := none, drawReason := none }

/-- `g0` after white resigns: a reachable terminal (`'finished'`) game. -/
def gFin0 : ChessGame := (g0.resign "w").1

/-- The move payload `e2 -> e4`. -/
def m0 : MoveArg := { fromSq := some "e2", toSq := some "e4", promotion := none }

/-- A move oracle that rejects every move with a null result. -/
def mvNull : MoveOracle := fun _ _ => MoveApply.nullResult

/-- A move oracle that accepts every move, yielding `inst1`. -/
def mvSuccess0 : MoveOracle := fun _ _ => MoveApply.success inst1 { san := "e4" }

/-- Single-room state: socket `s1` seated white, `s2` seated black,
game `g0` (white to move). -/
def st0 : SingleState :=
  { players := { white := some "s1", black := some "s2" }, game := g0 }

/-- Connection record of the user behind socket `s1`. -/
def ui0 : UserInfo :=
  { userId := "u1", username := "alice", rating := 1500, socketId := "s1" }

/-- White-seat player object of the multi-room controller. -/
def pw0 : SPlayer :=
  { userId := "u1", username := "alice", rating := 1500, socketId := "s1", color := "white" }

/-- Black-seat player object of the multi-room controller. -/
def pb0 : SPlayer :=
  { userId := "u2", username := "bob", rating := 1400, socketId := "s2", color := "black" }

/-- An active two-seat multi-room game, white to move. -/
def sg0 : SGame :=
  { id := "game1", fen := inst0.fen, status := "active", players := [pw0, pb0],
    spectators := [], moveCount := 0, currentTurn := "white", isCheck := false,
    winner := none, result := none, drawReason := none, lastMove := none,
    disconnectedBy := none, resignedBy := none, allowSpectators := true }

/-- A waiting multi-room game holding only its creator's seat. -/
def sgWaiting0 : SGame := { sg0 with status := "waiting", players := [pw0] }

/-- Post-move chess.js queries for an accepted quiet move. -/
def r0 : SMoveResult :=
  { newFen := "fen-after-e2e4", isCheckmate := false, isDraw := false,
    isStalemate := false, isCheck := false }

/-- An oracle that accepts every `handleMove` request. -/
def sOracleLegal0 : String → MoveArg → SOracle := fun _ _ => SOracle.legal r0

/-- A plain user document (`u1`). -/
def mu0 : MUser :=
  { _id := "u1", rating := 1500, role := "user", isBanned := false,
    isPublic := true, emailVerified := true, friends := none, analysisCredits := 0 }

/-- An active game document with both players and enough moves. -/
def mgBase : MGame :=
  { status := "active", players := ["u1", "u2"], currentTurn := some "u1",
    isPaused := false, moveCount := 40, pendingDrawOffer := none,
    allowSpectators := true, isPublic := true, minRating := none,
    maxRating := none, timeControl := none, playerTimers := none,
    tournament := none }

/-- `mgBase` with a pending draw offer authored by `u2`. -/
def mgOffer : MGame := { mgBase with pendingDrawOffer := some { fromId := "u2" } }

/-- `mgBase` with a pending draw offer authored by `u1` itself. -/
def mgOwnOffer : MGame := { mgBase with pendingDrawOffer := some { fromId := "u1" } }

/-- Context carrying user and game but no `targetGame` (so the
`join_tournament` predicate throws on `tournament.status`). -/
def ctxJT : PContext := { PContext.empty with user := some mu0, game := some mgBase }

/-- Context carrying only the user (so `view_profile` throws on
`targetUser._id`). -/
def ctxVP : PContext := { PContext.empty with user := some mu0 }

/-- A service game with black to move (used for a silent-denial case). -/
def gB0 : ChessGame := { g0 with chess := { inst0 with turn := "b" } }

/-- Single-room state where it is black's turn. -/
def stB0 : SingleState :=
  { players := { white := some "s1", black := some "s2" }, game := gB0 }

/-- Connection record of the user behind socket `s2`. -/
def ui2 : UserInfo :=
  { userId := "u2", username := "bob", rating := 1400, socketId := "s2" }

/-- `sg0` with its `isCheck` flag already set by an earlier checking
move. -/
def sgCheck0 : SGame := { sg0 with isCheck := true }

/-! ## Theorems -/

/-- C10: `ChessGame.getValidMoves` and `ChessGame.getAllValidMoves` are
total at the public interface: the Lean embeddings are total functions,
and whatever the chess.js `moves` oracle does — including throwing on a
malformed or off-board square — each returns the oracle's list on
success and `[]` on a thrown error, never propagating the error. -/
theorem c10_valid_moves_total :
    ∀ (g : ChessGame) (square : String)
      (movesFn : ChessInst → String → Except JsErr (List MoveRec))
      (movesAllFn : ChessInst → Except JsErr (List MoveRec)),
      (∀ e, movesFn g.chess square = .error e → g.getValidMoves square movesFn = []) ∧
      (∀ l, movesFn g.chess square = .ok l → g.getValidMoves square movesFn = l) ∧
      (∀ e, movesAllFn g.chess = .error e → g.getAllValidMoves movesAllFn = []) ∧
      (∀ l, movesAllFn g.chess = .ok l → g.getAllValidMoves movesAllFn = l) := by
  intro g square movesFn movesAllFn
  refine ⟨?_, ?_, ?_, ?_⟩
  · intro e he
    unfold ChessGame.getValidMoves
    rw [he]
  · intro l hl
    unfold ChessGame.getValidMoves
    rw [hl]
  · intro e he
    unfold ChessGame.getAllValidMoves
    rw [he]
  · intro l hl
    unfold ChessGame.getAllValidMoves
    rw [hl]

/-- Witness for C10: a moves oracle that throws on the malformed square
`"zz9"` yields `[]` through `getValidMoves` and `getAllValidMoves`. -/
theorem c10_valid_moves_total_witness :
    g0.getValidMoves "zz9" (fun _ _ => Except.error JsErr.typeError) = [] ∧
    g0.getAllValidMoves (fun _ => Except.error JsErr.typeError) = [] :=
  ⟨(c10_valid_moves_total g0 "zz9" (fun _ _ => Except.error JsErr.typeError)
      (fun _ => Except.error JsErr.typeError)).1 JsErr.typeError rfl,
   (c10_valid_moves_total g0 "zz9" (fun _ _ => Except.error JsErr.typeError)
      (fun _ => Except.error JsErr.typeError)).2.2.1 JsErr.typeError rfl⟩

/-- Helper: the socket-path membership test
`game.players.includes(user._id)` is false for every players array. -/
theorem sPlayers_any_undefined_false (ps : List SPlayer) :
    ps.any sPlayerEqUndefinedId = false := by
  induction ps with
  | nil => rfl
  | cons a t ih => simp [List.any, sPlayerEqUndefinedId, ih]

/-- Helper: on the socket path the `make_move` policy check denies
every request. -/
theorem canSocketMakeMove_false (u : UserInfo) (g : SGame) (d : MoveArg) :
    PolicyManager.canSocketMakeMove u g d = false := by
  unfold PolicyManager.canSocketMakeMove GamePolicy.canMakeMoveSocket
  by_cases h : g.status = "active" <;>
    simp [h, sPlayers_any_undefined_false]

/-- Helper: on the socket path the `resign_game` policy check denies
every request. -/
theorem canSocketResign_false (u : UserInfo) (g : SGame) :
    PolicyManager.canSocketResign u g = false := by
  unfold PolicyManager.canSocketResign GamePolicy.canResignGameSocket
  by_cases h : g.status = "active" <;>
    simp [h, sPlayers_any_undefined_false]

/-- C8: `accept_draw` and `decline_draw` are allowed by the game policy
only when the game has a pending draw offer not authored by the acting
user; with no pending offer, or a pending offer authored by the actor,
both are denied. -/
theorem c8_draw_accept_decline_gate :
    ∀ (u : MUser) (g : MGame),
      (GamePolicy.canAcceptDraw u g = .ok true →
        ∃ offer, g.pendingDrawOffer = some offer ∧ offer.fromId ≠ u._id) ∧
      (GamePolicy.canDeclineDraw u g = .ok true →
        ∃ offer, g.pendingDrawOffer = some offer ∧ offer.fromId ≠ u._id) ∧
      (g.pendingDrawOffer = none →
        GamePolicy.canAcceptDraw u g = .ok false ∧
        GamePolicy.canDeclineDraw u g = .ok false) ∧
      (∀ offer, g.pendingDrawOffer = some offer → offer.fromId = u._id →
        GamePolicy.canAcceptDraw u g = .ok false ∧
        GamePolicy.canDeclineDraw u g = .ok false) := by
  intro u g
  refine ⟨?_, ?_, ?_, ?_⟩
  · intro hacc
    unfold GamePolicy.canAcceptDraw at hacc
    split_ifs at hacc
    · exact absurd hacc (by simp)
    · cases hoffer : g.pendingDrawOffer with
      | none => rw [hoffer] at hacc; exact absurd hacc (by simp)
      | some offer =>
          rw [hoffer] at hacc
          refine ⟨offer, rfl, ?_⟩
          intro heq
          simp [heq] at hacc
    · exact absurd hacc (by simp)
  · intro hacc
    unfold GamePolicy.canDeclineDraw at hacc
    split_ifs at hacc
    · exact absurd hacc (by simp)
    · cases hoffer : g.pendingDrawOffer with
      | none => rw [hoffer] at hacc; exact absurd hacc (by simp)
      | some offer =>
          rw [hoffer] at hacc
          refine ⟨offer, rfl, ?_⟩
          intro heq
          simp [heq] at hacc
    · exact absurd hacc (by simp)
  · intro hnone
    constructor
    · unfold GamePolicy.canAcceptDraw
      split_ifs <;> simp [hnone]
    · unfold GamePolicy.canDeclineDraw
      split_ifs <;> simp [hnone]
  · intro offer hoffer hfrom
    constructor
    · unfold GamePolicy.canAcceptDraw
      split_ifs <;> simp [hoffer, hfrom]
    · unfold GamePolicy.canDeclineDraw
      split_ifs <;> simp [hoffer, hfrom]

/-- Witness for C8: with the pending offer authored by `u2`, user `u1`
is allowed (so the extracted offer exists and differs from `u1`), and
with no pending offer, or with `u1`'s own offer, both actions are
denied. -/
theorem c8_draw_accept_decline_gate_witness :
    (∃ offer, mgOffer.pendingDrawOffer = some offer ∧ offer.fromId ≠ mu0._id) ∧
    (GamePolicy.canAcceptDraw mu0 mgBase = .ok false ∧
      GamePolicy.canDeclineDraw mu0 mgBase = .ok false) ∧
    (GamePolicy.canAcceptDraw mu0 mgOwnOffer = .ok false ∧
      GamePolicy.canDeclineDraw mu0 mgOwnOffer = .ok false) :=
  ⟨(c8_draw_accept_decline_gate mu0 mgOffer).1 rfl,
   (c8_draw_accept_decline_gate mu0 mgBase).2.2.1 rfl,
   (c8_draw_accept_decline_gate mu0 mgOwnOffer).2.2.2 { fromId := "u1" } rfl rfl⟩

/-- Helper: the accepted-move update always increments `moveCount` by
exactly one, whatever the status branches do. -/
theorem applyAcceptedMove_moveCount (g : SGame) (d : MoveArg) (r : SMoveResult) :
    (SocketController.applyAcceptedMove g d r).moveCount = g.moveCount + 1 := by
  simp only [SocketController.applyAcceptedMove]
  split_ifs <;> rfl

/-- Helper: the accepted-move update always sets `currentTurn` to the
flipped value, whatever the status branches do. -/
theorem applyAcceptedMove_currentTurn (g : SGame) (d : MoveArg) (r : SMoveResult) :
    (SocketController.applyAcceptedMove g d r).currentTurn =
      (if g.currentTurn = "white" then "black" else "white") := by
  simp only [SocketController.applyAcceptedMove]
  split_ifs <;> rfl

/-- Helper: `updateGameStatus` only rewrites `gameStatus` / `winner` /
`drawReason`; the move counter is untouched. -/
theorem updateGameStatus_moveCount (g : ChessGame) :
    (g.updateGameStatus).moveCount = g.moveCount := by
  unfold ChessGame.updateGameStatus
  split_ifs <;> rfl

/-- C1: a `move` action is accepted only if the acting user occupies
the seat whose color equals the pre-move turn; otherwise it is denied
with no state change, regardless of the move's chess legality.  In the
single-room coordinator the seat/turn guard enforces exactly this (and
a denial changes nothing and emits nothing).  In the multi-room
coordinator the `make_move` policy check compares `game.currentTurn`
with `user._id` and tests `game.players.includes(user._id)` against
player objects, so it denies every request — each request on an
existing game leaves the game unchanged and only the requester is
notified, and in particular acceptance never happens without the
claimed seat condition. -/
theorem c1_move_gate :
    (∀ (st : SingleState) (sid : String) (m : MoveArg) (mv : MoveOracle),
        ¬ occupiesTurnSeat st sid → handleMoveEvent st sid m mv = (st, [])) ∧
    (∀ (u : UserInfo) (g : SGame) (d : MoveArg) (oracle : String → MoveArg → SOracle),
        SocketController.handleMove (some u) (some g) d oracle =
          (some g, [Emit.toRequester "error:Cannot make this move"])) := by
  constructor
  · intro st sid m mv hocc
    by_cases hw : st.players.white = some sid
    · have ht : st.game.chess.turn ≠ "w" := fun h => hocc (Or.inl ⟨hw, h⟩)
      have ht' : ("w" : String) ≠ st.game.chess.turn := fun h => ht h.symm
      simp [handleMoveEvent, colorOf, hw, ht']
    · by_cases hb : st.players.black = some sid
      · have ht : st.game.chess.turn ≠ "b" := fun h => hocc (Or.inr ⟨hb, h⟩)
        have ht' : ("b" : String) ≠ st.game.chess.turn := fun h => ht h.symm
        simp [handleMoveEvent, colorOf, hw, hb, ht']
      · simp [handleMoveEvent, colorOf, hw, hb]
  · intro u g d oracle
    unfold SocketController.handleMove
    simp [canSocketMakeMove_false]

/-- Witness for C1: socket `s2` (seated black) requests a move while it
is white's turn — the result is the unchanged state with no emission;
and on the multi-room side a seated user's well-formed request on an
active game is denied with a requester-only error. -/
theorem c1_move_gate_witness :
    handleMoveEvent st0 "s2" m0 mvNull = (st0, []) ∧
    SocketController.handleMove (some ui0) (some sg0) m0 sOracleLegal0 =
      (some sg0, [Emit.toRequester "error:Cannot make this move"]) :=
  ⟨c1_move_gate.1 st0 "s2" m0 mvNull (by decide),
   c1_move_gate.2 ui0 sg0 m0 sOracleLegal0⟩

/-- C2: for every accepted and applied move, the multi-room update sets
`currentTurn` to the opposite color (a single flip) and increments the
move counter by exactly one; and the service `makeMove` increments its
move counter by exactly one whenever it returns a move record. -/
theorem c2_turn_flip_and_move_count :
    (∀ (g : SGame) (d : MoveArg) (r : SMoveResult),
       (SocketController.applyAcceptedMove g d r).moveCount = g.moveCount + 1 ∧
       ((g.currentTurn = "white" ∨ g.currentTurn = "black") →
         (SocketController.applyAcceptedMove g d r).currentTurn =
           (if g.currentTurn = "white" then "black" else "white") ∧
         (SocketController.applyAcceptedMove g d r).currentTurn ≠ g.currentTurn)) ∧
    (∀ (cg : ChessGame) (m : MoveArg) (mv : MoveOracle) (rec : MoveRec),
       (cg.makeMove m mv).2 = some rec →
       (cg.makeMove m mv).1.moveCount = cg.moveCount + 1) := by
  constructor
  · intro g d r
    refine ⟨applyAcceptedMove_moveCount g d r,
            fun hturn => ⟨applyAcceptedMove_currentTurn g d r, ?_⟩⟩
    rcases hturn with h | h <;> rw [applyAcceptedMove_currentTurn] <;> simp [h]
  · intro cg m mv rec hrec
    unfold ChessGame.makeMove at hrec ⊢
    cases hmv : mv cg.chess m with
    | throws => rw [hmv] at hrec; simp at hrec
    | nullResult => rw [hmv] at hrec; simp at hrec
    | success inst r2 =>
        simp [updateGameStatus_moveCount]

/-- Witness for C2: the accepted opening move on `sg0` flips
`currentTurn` white→black and takes the move counter from 0 to 1, and
the service `makeMove` with an accepting oracle takes `moveCount` from
0 to 1. -/
theorem c2_turn_flip_and_move_count_witness :
    (SocketController.applyAcceptedMove sg0 m0 r0).currentTurn = "black" ∧
    (SocketController.applyAcceptedMove sg0 m0 r0).moveCount = 1 ∧
    (g0.makeMove m0 mvSuccess0).1.moveCount = 1 := by
  refine ⟨?_, ?_, ?_⟩
  · have h := ((c2_turn_flip_and_move_count.1 sg0 m0 r0).2 (Or.inl rfl)).1
    simpa [sg0] using h
  · have h := (c2_turn_flip_and_move_count.1 sg0 m0 r0).1
    simpa [sg0] using h
  · have h := c2_turn_flip_and_move_count.2 g0 m0 mvSuccess0 { san := "e4" } rfl
    simpa [g0] using h

/-- Helper: a filterMap whose function is constantly `none` produces
the empty list. -/
theorem list_filterMap_const_none {α β : Type} (l : List α) :
    l.filterMap (fun _ => (none : Option β)) = [] := by
  induction l with
  | nil => rfl
  | cons a t ih => simp [List.filterMap_cons, ih]

/-- Counterexample for C3: `gFin0` is a reachable terminal game
(white resigned), yet `startNewGame` returns it to `'active'`, and so
does `loadGame` of a non-terminal position (via `updateGameStatus`) —
the terminal status is not absorbing. -/
theorem c3_counterexample :
    gFin0.gameStatus = "finished" ∧
    (ChessGame.startNewGame gFin0 inst0).gameStatus = "active" ∧
    (ChessGame.loadGame gFin0 inst0.fen (fun _ _ => Except.ok inst0)).1.gameStatus = "active" := by
  refine ⟨rfl, rfl, rfl⟩

/-- C3 amended: terminal status is preserved by `resign` (which
refuses whenever the status is not `'active'`), but `startNewGame`
unconditionally resets the status to `'active'`, and
`updateGameStatus` (run by `makeMove` and `loadGame`) recomputes the
status from the position alone — `'finished'` exactly when a chess.js
terminal flag holds, `'active'` otherwise, regardless of the previous
status. -/
theorem c3_amended_terminal_not_absorbing :
    (∀ (g : ChessGame) (c : String), g.gameStatus ≠ "active" → g.resign c = (g, false)) ∧
    (∀ (g : ChessGame) (ni : ChessInst), (g.startNewGame ni).gameStatus = "active") ∧
    (∀ g : ChessGame, (g.updateGameStatus).gameStatus =
        (if g.chess.terminalFlag then "finished" else "active")) := by
  refine ⟨?_, ?_, ?_⟩
  · intro g c h
    unfold ChessGame.resign
    rw [if_neg h]
  · intro g ni
    rfl
  · intro g
    unfold ChessGame.updateGameStatus ChessInst.terminalFlag
    split_ifs <;> simp_all

/-- Witness for C3 amended: `resign` on the finished game `gFin0` is a
no-op returning false. -/
theorem c3_amended_terminal_not_absorbing_witness :
    ChessGame.resign gFin0 "b" = (gFin0, false) :=
  c3_amended_terminal_not_absorbing.1 gFin0 "b" (by decide)

/-- Counterexample for C4: when white's socket `s1` disconnects from
the active game `sg0`, the room does transition to finished /
disconnection / winner black, but the notification list is empty — the
remaining player is NOT notified, because `getSocketById` is a stub
returning null; and when `s1` disconnects while the room is `waiting`,
the seat is NOT vacated: the room is returned untouched with `s1`
still seated. -/
theorem c4_counterexample :
    (SocketController.handlePlayerDisconnection (some sg0) "s1").1 =
      some { sg0 with status := "finished", disconnectedBy := some "u1",
                      winner := some "black", result := some "disconnection" } ∧
    (SocketController.handlePlayerDisconnection (some sg0) "s1").2 = [] ∧
    SocketController.handlePlayerDisconnection (some sgWaiting0) "s1" = (some sgWaiting0, []) ∧
    sgWaiting0.players.any (fun p => p.socketId == "s1") = true := by
  refine ⟨rfl, rfl, rfl, rfl⟩

/-- C4 amended: losing a seated player's connection while the room is
`'active'` finishes the room with result `'disconnection'` and winner
the remaining seat's color, but delivers no notification (the socket
lookup used for notification is a stub returning null); while the room
is `'waiting'`, the multi-room coordinator leaves the room — seats
included — completely unchanged.  Only the single-room coordinator
vacates the disconnecting socket's seat (without ending anything). -/
theorem c4_amended_disconnection :
    (∀ (g : SGame) (sid : String) (p : SPlayer),
       g.status = "active" →
       g.players.find? (fun q => q.socketId == sid) = some p →
       SocketController.handlePlayerDisconnection (some g) sid =
         (some { g with status := "finished", disconnectedBy := some p.userId,
                        winner := (g.players.find? (fun q => q.socketId != sid)).map
                          (fun q => q.color),
                        result := some "disconnection" }, [])) ∧
    (∀ (g : SGame) (sid : String), g.status = "waiting" →
       SocketController.handlePlayerDisconnection (some g) sid = (some g, [])) ∧
    (∀ (ps : PlayersMap) (sid : String),
       (handleDisconnectEvent ps sid).white =
         (if ps.white = some sid then none else ps.white) ∧
       (handleDisconnectEvent ps sid).black =
         (if ps.black = some sid then none else ps.black)) := by
  refine ⟨?_, ?_, ?_⟩
  · intro g sid p hact hfind
    simp only [SocketController.handlePlayerDisconnection]
    rw [if_neg (by simp [hact])]
    rw [hfind]
    simp [SocketController.getSocketById, list_filterMap_const_none]
  · intro g sid hwait
    simp only [SocketController.handlePlayerDisconnection]
    rw [if_pos (by rw [hwait]; decide)]
  · intro ps sid
    unfold handleDisconnectEvent
    by_cases h1 : ps.white = some sid <;> by_cases h2 : ps.black = some sid <;>
      simp [h1, h2]

/-- Witness for C4 amended: black's socket `s2` disconnecting from
`sg0` finishes the room with winner white and an empty notification
list; disconnecting from the waiting room changes nothing; and the
single-room disconnect vacates exactly the black seat. -/
theorem c4_amended_disconnection_witness :
    SocketController.handlePlayerDisconnection (some sg0) "s2" =
      (some { sg0 with status := "finished", disconnectedBy := some "u2",
                       winner := some "white", result := some "disconnection" }, []) ∧
    SocketController.handlePlayerDisconnection (some sgWaiting0) "s2" = (some sgWaiting0, []) ∧
    (handleDisconnectEvent { white := some "s1", black := some "s2" } "s2").white = some "s1" ∧
    (handleDisconnectEvent { white := some "s1", black := some "s2" } "s2").black = none := by
  refine ⟨?_, ?_, ?_, ?_⟩
  · exact c4_amended_disconnection.1 sg0 "s2" pb0 rfl rfl
  · exact c4_amended_disconnection.2.1 sgWaiting0 "s2" rfl
  · have h := (c4_amended_disconnection.2.2 { white := some "s1", black := some "s2" } "s2").1
    simpa using h
  · have h := (c4_amended_disconnection.2.2 { white := some "s1", black := some "s2" } "s2").2
    simpa using h

/-- Counterexample for C5: in the single-room coordinator, with black
to move, the seated white player `s1` submits a move; the request is
denied by the seat/turn guard, the state is unchanged — but the
emission list is EMPTY: no denial notification is sent to the
requesting connection, contrary to the claim that a notification is
emitted to the requester on every denial. -/
theorem c5_counterexample :
    handleMoveEvent stB0 "s1" m0 mvNull = (stB0, []) := by
  rfl

/-- C5 amended: a request denied by the policy engine or rejected by
the rules oracle leaves the game state unchanged and sends nothing to
the other participants; the multi-room coordinator notifies only the
requester of a policy denial, and the single-room coordinator notifies
only the requester of an oracle rejection (`invalid`), but the
single-room seat/turn guard denies silently, emitting nothing at
all. -/
theorem c5_amended_denial_isolation :
    (∀ (u : UserInfo) (g : SGame) (d : MoveArg) (oracle : String → MoveArg → SOracle),
        SocketController.handleMove (some u) (some g) d oracle =
          (some g, [Emit.toRequester "error:Cannot make this move"])) ∧
    (∀ (st : SingleState) (sid : String) (m : MoveArg) (mv : MoveOracle),
        ¬ occupiesTurnSeat st sid → handleMoveEvent st sid m mv = (st, [])) ∧
    (∀ (st : SingleState) (sid : String) (m : MoveArg) (mv : MoveOracle) (c : String),
        colorOf st.players sid = some c → c = st.game.chess.turn →
        (mv st.game.chess m = MoveApply.nullResult ∨ mv st.game.chess m = MoveApply.throws) →
        handleMoveEvent st sid m mv = (st, [Emit1.toRequester "invalid"])) := by
  refine ⟨?_, ?_, ?_⟩
  · intro u g d oracle
    unfold SocketController.handleMove
    simp [canSocketMakeMove_false]
  · intro st sid m mv hocc
    by_cases hw : st.players.white = some sid
    · have ht : st.game.chess.turn ≠ "w" := fun h => hocc (Or.inl ⟨hw, h⟩)
      have ht' : ("w" : String) ≠ st.game.chess.turn := fun h => ht h.symm
      simp [handleMoveEvent, colorOf, hw, ht']
    · by_cases hb : st.players.black = some sid
      · have ht : st.game.chess.turn ≠ "b" := fun h => hocc (Or.inr ⟨hb, h⟩)
        have ht' : ("b" : String) ≠ st.game.chess.turn := fun h => ht h.symm
        simp [handleMoveEvent, colorOf, hw, hb, ht']
      · simp [handleMoveEvent, colorOf, hw, hb]
  · intro st sid m mv c hcolor heq hmv
    subst heq
    rcases hmv with h | h <;>
      simp [handleMoveEvent, hcolor, ChessGame.makeMove, h]

/-- Witness for C5 amended: a seated user's request on an active
multi-room game is denied to the requester only with no state change;
an unseated socket `s3` is denied silently on the single-room side;
and white's oracle-rejected move on its own turn earns a
requester-only `invalid` with no state change. -/
theorem c5_amended_denial_isolation_witness :
    SocketController.handleMove (some ui2) (some sg0) m0 sOracleLegal0 =
      (some sg0, [Emit.toRequester "error:Cannot make this move"]) ∧
    handleMoveEvent st0 "s3" m0 mvNull = (st0, []) ∧
    handleMoveEvent st0 "s1" m0 mvNull = (st0, [Emit1.toRequester "invalid"]) :=
  ⟨c5_amended_denial_isolation.1 ui2 sg0 m0 sOracleLegal0,
   c5_amended_denial_isolation.2.1 st0 "s3" m0 mvNull (by decide),
   c5_amended_denial_isolation.2.2 st0 "s1" m0 mvNull "w" rfl rfl (Or.inl rfl)⟩

/-- C9: once a multi-room game's `isCheck` flag is true it stays true:
the accepted-move update never clears it (the broadcast payload then
reports `isCheck = true` even when the new position gives no check),
and neither the resignation update nor disconnection handling touches
it. -/
theorem c9_isCheck_monotone :
    ∀ (g : SGame) (d : MoveArg) (r : SMoveResult) (u : UserInfo) (sid : String),
      (g.isCheck = true →
        (SocketController.applyAcceptedMove g d r).isCheck = true ∧
        (SocketController.moveMadePayload
          (SocketController.applyAcceptedMove g d r)).isCheck = true) ∧
      (SocketController.resignUpdate g u).isCheck = g.isCheck ∧
      (∀ (g' : SGame) (ns : List Notif),
        SocketController.handlePlayerDisconnection (some g) sid = (some g', ns) →
        g'.isCheck = g.isCheck) := by
  intro g d r u sid
  refine ⟨?_, rfl, ?_⟩
  · intro h
    have hm : (SocketController.applyAcceptedMove g d r).isCheck = true := by
      simp only [SocketController.applyAcceptedMove]
      split_ifs <;> simp [h]
    exact ⟨hm, by simp [SocketController.moveMadePayload, hm]⟩
  · intro g' ns hres
    simp only [SocketController.handlePlayerDisconnection] at hres
    split_ifs at hres with hstat
    · simp only [Prod.mk.injEq, Option.some.injEq] at hres
      rw [← hres.1]
    · cases hfind : g.players.find? (fun p => p.socketId == sid) with
      | none =>
          simp only [hfind, Prod.mk.injEq, Option.some.injEq] at hres
          rw [← hres.1]
      | some p =>
          simp only [hfind, Prod.mk.injEq, Option.some.injEq] at hres
          rw [← hres.1]

/-- Witness for C9: with `isCheck` already set on `sgCheck0` and an
accepted quiet reply (`r0` reports no check), the updated game and its
broadcast payload still report `isCheck = true`; resignation and
disconnection preserve the flag as well. -/
theorem c9_isCheck_monotone_witness :
    (SocketController.applyAcceptedMove sgCheck0 m0 r0).isCheck = true ∧
    (SocketController.moveMadePayload
      (SocketController.applyAcceptedMove sgCheck0 m0 r0)).isCheck = true ∧
    (SocketController.resignUpdate sgCheck0 ui0).isCheck = sgCheck0.isCheck := by
  have h := (c9_isCheck_monotone sgCheck0 m0 r0 ui0 "s1").1 rfl
  exact ⟨h.1, h.2, (c9_isCheck_monotone sgCheck0 m0 r0 ui0 "s1").2.1⟩

/-- Helper: the game policy validates `['user','game']` before
dispatch, so a context lacking `user` is denied without evaluation. -/
theorem gamePolicy_can_user_none (c : PContext) (action : String) (h : c.user = none) :
    GamePolicy.can (some c) action = .ok false := by
  unfold GamePolicy.can BasePolicy.validateContext
  simp [PContext.hasField, h]

/-- Helper: a context lacking `game` is denied by the game policy
without evaluation. -/
theorem gamePolicy_can_game_none (c : PContext) (action : String) (h : c.game = none) :
    GamePolicy.can (some c) action = .ok false := by
  unfold GamePolicy.can BasePolicy.validateContext
  simp [PContext.hasField, h]

/-- Helper: the user policy validates `['user']` before dispatch, so a
context lacking `user` is denied without evaluation. -/
theorem userPolicy_can_user_none (c : PContext) (action : String) (h : c.user = none) :
    UserPolicy.can (some c) action = .ok false := by
  unfold UserPolicy.can BasePolicy.validateContext
  simp [PContext.hasField, h]

/-- C6: the authorization check `PolicyManager.can` is fail-closed and
never propagates an exception (its embedding is a total `Bool`-valued
function): a null / non-object context yields `false`, a context
missing a required field (`user`; also `game` for the game policy)
yields `false` before any predicate runs, and a policy evaluation that
throws internally is caught and yields `false`. -/
theorem c6_can_fail_closed :
    ∀ (policyType action : String) (ctx : Option PContext),
      (ctx = none → PolicyManager.can policyType ctx action = false) ∧
      (∀ c : PContext, ctx = some c → c.user = none →
        PolicyManager.can policyType ctx action = false) ∧
      (∀ e : JsErr, GamePolicy.can ctx action = .error e →
        PolicyManager.can "game" ctx action = false) ∧
      (∀ e : JsErr, UserPolicy.can ctx action = .error e →
        PolicyManager.can "user" ctx action = false) ∧
      (∀ c : PContext, ctx = some c → c.game = none →
        PolicyManager.can "game" ctx action = false) := by
  intro pt action ctx
  refine ⟨?_, ?_, ?_, ?_, ?_⟩
  · intro h
    subst h
    unfold PolicyManager.can
    split_ifs <;>
      simp [exceptCatch, UserPolicy.can, GamePolicy.can, BasePolicy.validateContext]
  · intro c hc hu
    subst hc
    unfold PolicyManager.can
    split_ifs <;>
      simp [exceptCatch, userPolicy_can_user_none c action hu,
            gamePolicy_can_user_none c action hu]
  · intro e he
    unfold PolicyManager.can
    rw [if_neg (by decide), if_pos rfl, he]
    rfl
  · intro e he
    unfold PolicyManager.can
    rw [if_pos rfl, he]
    rfl
  · intro c hc hg
    subst hc
    unfold PolicyManager.can
    rw [if_neg (by decide), if_pos rfl, gamePolicy_can_game_none c action hg]
    rfl

/-- Witness for C6: a null context, an empty context, a
`join_tournament` check whose predicate throws on the missing
`targetGame`, and a `view_profile` check whose predicate throws on the
missing `targetUser` all return `false`. -/
theorem c6_can_fail_closed_witness :
    PolicyManager.can "game" none "make_move" = false ∧
    PolicyManager.can "game" (some PContext.empty) "make_move" = false ∧
    PolicyManager.can "game" (some ctxJT) "join_tournament" = false ∧
    PolicyManager.can "user" (some ctxVP) "view_profile" = false :=
  ⟨(c6_can_fail_closed "game" "make_move" none).1 rfl,
   (c6_can_fail_closed "game" "make_move" (some PContext.empty)).2.1 PContext.empty rfl rfl,
   (c6_can_fail_closed "game" "join_tournament" (some ctxJT)).2.2.1 JsErr.typeError rfl,
   (c6_can_fail_closed "user" "view_profile" (some ctxVP)).2.2.2.1 JsErr.typeError rfl⟩

/-- Counterexample for C7: a thrown context builder produces the 500
response `'Context building failed'`, while a failed policy check
produces the 403 response `'Insufficient permissions'` — the two
outcomes differ, so a context-build failure is NOT handled as the same
denial outcome as a failed policy check. -/
theorem c7_counterexample :
    PolicyMiddleware.requirePermission "game" "make_move" (some mu0)
      (some (Except.error JsErr.typeError)) =
      HttpOutcome.serverError "Context building failed" ∧
    PolicyMiddleware.requirePermission "game" "make_move" (some mu0)
      (some (Except.ok PContext.empty)) =
      HttpOutcome.forbidden "Insufficient permissions" ∧
    HttpOutcome.serverError "Context building failed" ≠
      HttpOutcome.forbidden "Insufficient permissions" := by
  refine ⟨rfl, rfl, by decide⟩

/-- C7 amended: when the context builder throws, the middleware is
fail-closed in the sense that the business logic never runs (`next()`
is not called), but the response is the 500 error `'Context building
failed'`, not the 403 `'Insufficient permissions'` denial used for a
failed policy check. -/
theorem c7_amended_context_failure :
    ∀ (policyType action : String) (u : MUser) (e : JsErr),
      PolicyMiddleware.requirePermission policyType action (some u) (some (Except.error e)) =
        HttpOutcome.serverError "Context building failed" ∧
      PolicyMiddleware.requirePermission policyType action (some u) (some (Except.error e)) ≠
        HttpOutcome.nextCalled := by
  intro pt a u e
  have h : PolicyMiddleware.requirePermission pt a (some u) (some (Except.error e)) =
      HttpOutcome.serverError "Context building failed" := rfl
  refine ⟨h, ?_⟩
  rw [h]
  intro hh
  exact HttpOutcome.noConfusion hh
